import Mathlib

/-
Verification of the confect configuration registry against its specification.

The Python sources (src/confect/conf.py, conf_depot.py, prop_type.py, error.py)
are shallowly embedded below.  Python dictionaries become association lists
that preserve insertion order; the `Undefined` sentinel stored in
`ConfProperty._value` becomes `Option` (the sentinel is `none`, and its
`__deepcopy__` returns the singleton itself, so a structural copy preserves
the "never assigned" state exactly); raising an exception becomes returning
an error value, and a mutating method returns the post-call state together
with the exception it raised, because in Python mutations performed before a
raise persist.  A `with` statement body is modelled as a state transformer
`Conf → Option PyExc × Conf` whose first component is the exception the body
raised, if any; `contextlib.contextmanager` semantics are kept faithfully:
the code after `yield` in the generator runs only when the body did not
raise, since the sources use no try/finally.
-/

namespace Confect

/-- Python runtime values that flow through the configuration system.
Floats are represented by their decimal literal `m / 10 ^ e` (mantissa and
decimal-exponent), which is exact for the literals the parsers accept. -/
inductive PyObj where
  | intV : Int → PyObj
  | boolV : Bool → PyObj
  | strV : String → PyObj
  | floatV : Int → Nat → PyObj
  | noneV : PyObj
deriving DecidableEq

/-- Python runtime types relevant to the property-type system. -/
inductive PyType where
  | intT | floatT | boolT | strT | noneT
deriving DecidableEq

/-- Runtime type of a value, as Python's `type()` reports it. -/
def PyObj.typeOf : PyObj → PyType
  | .intV _ => .intT
  | .boolV _ => .boolT
  | .strV _ => .strT
  | .floatV _ _ => .floatT
  | .noneV => .noneT

/-- Python `isinstance(v, t)`: exact type match, except that `bool` is a
subclass of `int`, so every `bool` value is an instance of `int`. -/
def pyIsinstance (v : PyObj) (t : PyType) : Bool :=
  v.typeOf == t ||
    match v, t with
    | .boolV _, .intT => true
    | _, _ => false

/-- Exceptions raised by the embedded code.  The confect exception classes
come from src/confect/error.py; the rest are Python built-ins. -/
inductive PyExc where
  | unknownConfError
  | frozenConfPropError
  | frozenConfGroupError
  | confGroupExistsError
  | parseError
  | parameterError
  | attributeError
  | keyError
  | typeError
  | valueError
  | syntaxError
deriving DecidableEq

/-- Python `isinstance(e, cls)` on exception objects, following the class
hierarchy of src/confect/error.py: `UnknownConfError(AttributeError, KeyError)`,
`FrozenConfPropError(TypeError)`, `FrozenConfGroupError(TypeError)`,
`ConfGroupExistsError(ValueError)`.  An instance of a raised class is also an
instance of every base class, but never the other way round. -/
def PyExc.pyIsInstance (e cls : PyExc) : Bool :=
  e == cls ||
    match e, cls with
    | .unknownConfError, .attributeError => true
    | .unknownConfError, .keyError => true
    | .frozenConfPropError, .typeError => true
    | .frozenConfGroupError, .typeError => true
    | .confGroupExistsError, .valueError => true
    | _, _ => false

/-- Ordered association list standing for a Python `dict`: lookup of the
(unique) binding for a key. -/
def alookup {β : Type} : List (String × β) → String → Option β
  | [], _ => none
  | kv :: rest, key => if kv.1 == key then some kv.2 else alookup rest key

/-- Python `d[key] = v`: replace the binding in place if the key exists,
otherwise append it, preserving insertion order. -/
def aset {β : Type} : List (String × β) → String → β → List (String × β)
  | [], key, v => [(key, v)]
  | kv :: rest, key, v =>
    if kv.1 == key then (key, v) :: rest else kv :: aset rest key v

/-- Python `del d[key]`: drop the binding for the key. -/
def adel {β : Type} : List (String × β) → String → List (String × β)
  | [], _ => []
  | kv :: rest, key => if kv.1 == key then adel rest key else kv :: adel rest key

/-- Test for a decimal digit character. -/
def isDigitChar (c : Char) : Bool :=
  ("0123456789".data).contains c

/-- Test for an identifier character (ASCII letter or underscore). -/
def isIdentChar (c : Char) : Bool :=
  ("abcdefghijklmnopqrstuvwxyzABCDEFGHIJKLMNOPQRSTUVWXYZ_".data).contains c

/-- Test whether a character list is nonempty and all decimal digits. -/
def digitsChars (l : List Char) : Bool :=
  !l.isEmpty && l.all isDigitChar

/-- Decimal value of a digit character list. -/
def charsToNat (l : List Char) : Nat :=
  l.foldl (fun n c => n * 10 + (c.toNat - 48)) 0

/-- Test whether the first list is a prefix of the second
(`str.startswith`). -/
def charsPrefix : List Char → List Char → Bool
  | [], _ => true
  | _ :: _, [] => false
  | a :: as2, b :: bs => a == b && charsPrefix as2 bs

/-- Split on `"__"`, left to right and non-overlapping, like Python's
`name.split("__")`. -/
def splitOnUU : List Char → List (List Char)
  | [] => [[]]
  | '_' :: '_' :: rest => [] :: splitOnUU rest
  | c :: rest =>
    match splitOnUU rest with
    | [] => [[c]]
    | part :: parts => (c :: part) :: parts

/-- Split on the dot character, like Python's `s.split(".")`. -/
def splitOnDot : List Char → List (List Char)
  | [] => [[]]
  | '.' :: rest => [] :: splitOnDot rest
  | c :: rest =>
    match splitOnDot rest with
    | [] => [[c]]
    | part :: parts => (c :: part) :: parts

/-- Test whether a string looks like a bare Python identifier. -/
def isPyIdent (s : String) : Bool :=
  !s.data.isEmpty && s.data.all isIdentChar

/-- Optionally signed decimal integer literal. -/
def intLit : List Char → Option Int
  | [] => none
  | '-' :: rest => if digitsChars rest then some (-(charsToNat rest : Int)) else none
  | l => if digitsChars l then some ((charsToNat l : Nat) : Int) else none

/-- Decimal float literal `a.b` with both parts all digits. -/
def floatLit (s : String) : Option PyObj :=
  match splitOnDot s.data with
  | [a, b] =>
    if digitsChars a && digitsChars b then
      some (.floatV (charsToNat (a ++ b)) b.length)
    else none
  | _ => none

/-- Modelled from the spec: `ast.literal_eval`, the external stdlib routine
behind the "strict literal evaluation" of section 4.3, is not part of this
repository.  It is modelled on the scalar literals the claims exercise:
the keywords `True`/`False`/`None`, optionally signed decimal integers,
decimal floats `a.b`, bare identifiers (which Python's `literal_eval`
rejects as a malformed node with `ValueError`), and everything else is a
`SyntaxError`, as raised by compiling a non-literal such as the empty
string. -/
def literal_eval (s : String) : Except PyExc PyObj :=
  if s == "True" then .ok (.boolV true)
  else if s == "False" then .ok (.boolV false)
  else if s == "None" then .ok .noneV
  else
    match intLit s.data with
    | some n => .ok (.intV n)
    | none =>
      match floatLit s with
      | some v => .ok v
      | none => if isPyIdent s then .error .valueError else .error .syntaxError

/-- Embedding of `PythonLiteralParserBase.parse` (src/confect/prop_type.py
lines 149-161): run `ast.literal_eval`, re-raise a `ValueError` as
`ParseError` (any other exception propagates unchanged, since the `except`
clause names only `ValueError`), then raise `ParseError` when the evaluated
value is not an `isinstance` of the target `python_type`. -/
def PythonLiteralParserBase.parse (t : PyType) (s : String) : Except PyExc PyObj :=
  match literal_eval s with
  | .error e => if e == .valueError then .error .parseError else .error e
  | .ok v => if pyIsinstance v t then .ok v else .error .parseError

/-- Embedding of `Integer.parse` (class `Integer(PythonLiteralParserBase)`
with `python_type = int`, src/confect/prop_type.py lines 183-189). -/
def Integer.parse (s : String) : Except PyExc PyObj :=
  PythonLiteralParserBase.parse .intT s

/-- Embedding of `Float.parse` (class `Float(PythonLiteralParserBase)` with
`python_type = float`, src/confect/prop_type.py lines 192-198). -/
def Float.parse (s : String) : Except PyExc PyObj :=
  PythonLiteralParserBase.parse .floatT s

/-- Property types used by the claims: `Integer`, `Float` and `String` from
src/confect/prop_type.py, identified by their `python_type`. -/
inductive PropType where
  | integerPT | floatPT | stringPT
deriving DecidableEq

/-- Dispatch of `prop_type.parse` for the embedded property types
(`String.parse` returns the string unchanged, prop_type.py line 113). -/
def PropType.parse : PropType → String → Except PyExc PyObj
  | .integerPT, s => Integer.parse s
  | .floatPT, s => Float.parse s
  | .stringPT, s => .ok (.strV s)

/-- Embedding of `ConfProperty` (src/confect/conf.py lines 48-142): the
declared `default`, the override slot `_value` whose `Undefined` sentinel is
`none`, and the resolved property type. -/
structure ConfProperty where
  default : PyObj
  _value : Option PyObj
  propType : PropType
deriving DecidableEq

/-- Embedding of the `ConfProperty.value` getter (conf.py lines 118-123):
the override if it is not the `Undefined` sentinel, else the default. -/
def ConfProperty.value (p : ConfProperty) : PyObj :=
  match p._value with
  | some v => v
  | none => p.default

/-- Embedding of the `ConfProperty.value` setter (conf.py lines 125-127). -/
def ConfProperty.setValue (p : ConfProperty) (v : PyObj) : ConfProperty :=
  { p with _value := some v }

/-- Embedding of `ConfGroup` (conf.py lines 487-559): its name and the
insertion-ordered `_properties` dict. -/
structure ConfGroup where
  _name : String
  _properties : List (String × ConfProperty)
deriving DecidableEq

/-- Embedding of `ConfGroup.__getitem__` (conf.py lines 504-511): unknown
property names raise `UnknownConfError`; known ones return the effective
value. -/
def ConfGroup.getitem (g : ConfGroup) (p : String) : Except PyExc PyObj :=
  match alookup g._properties p with
  | none => .error .unknownConfError
  | some pr => .ok pr.value

/-- Embedding of `ConfGroup.__setitem__` (conf.py lines 513-524): when the
owning registry is frozen it raises `FrozenConfPropError` before touching
anything; otherwise `self._properties[property_name].value = value`, where
the dict lookup raises `KeyError` for an undeclared name.  The returned
group is the state after the call; on an exception it is unchanged. -/
def ConfGroup.setitem (isFrozen : Bool) (g : ConfGroup) (p : String) (v : PyObj) :
    Option PyExc × ConfGroup :=
  if isFrozen then (some .frozenConfPropError, g)
  else
    match alookup g._properties p with
    | none => (some .keyError, g)
    | some pr => (none, { g with _properties := aset g._properties p (pr.setValue v) })

/-- Embedding of `ConfGroup._update_from_conf_depot_group` (conf.py lines
533-536): for each staged `(name, value)` pair in depot order, set the
override when the name is a declared property, silently skip it otherwise. -/
def ConfGroup._update_from_conf_depot_group :
    ConfGroup → List (String × PyObj) → ConfGroup
  | g, [] => g
  | g, pv :: rest =>
    match alookup g._properties pv.1 with
    | none => ConfGroup._update_from_conf_depot_group g rest
    | some pr =>
      ConfGroup._update_from_conf_depot_group
        { g with _properties := aset g._properties pv.1 (pr.setValue pv.2) } rest

/-- Embedding of `ConfDepotGroup.__getattr__` (src/confect/conf_depot.py
lines 60-68): an unknown staged property name raises the built-in
`AttributeError` (not a subclass). -/
def ConfDepotGroup.getattr (dg : List (String × PyObj)) (p : String) :
    Except PyExc PyObj :=
  match alookup dg p with
  | none => .error .attributeError
  | some v => .ok v

/-- Embedding of `ConfDepotGroup.__setattr__` (conf_depot.py lines 70-74)
for non-slot names: stage the value in `_depot_properties`. -/
def ConfDepotGroup.setattr (dg : List (String × PyObj)) (p : String) (v : PyObj) :
    List (String × PyObj) :=
  aset dg p v

/-- Embedding of `ConfDepotGroup.__setitem__` (conf_depot.py lines 57-58).
The source declares it as `def __setitem__(self, property_name)` with no
value parameter, so every item assignment `depot_group[prop] = value` calls
it with three arguments and raises `TypeError` before any body runs. -/
def ConfDepotGroup.setitem (_ : List (String × PyObj)) (_ : String) (_ : PyObj) :
    Except PyExc (List (String × PyObj)) :=
  .error .typeError

/-- Embedding of `ConfDepot.__getitem__` (conf_depot.py lines 16-17): a plain
dict lookup that raises `KeyError` for an absent group; item access does not
auto-vivify (only attribute access does). -/
def ConfDepot.getitem (depot : List (String × List (String × PyObj))) (g : String) :
    Except PyExc (List (String × PyObj)) :=
  match alookup depot g with
  | none => .error .keyError
  | some dg => .ok dg

/-- Embedding of `ConfDepot.__getattr__` (conf_depot.py lines 19-27): return
the staged group, auto-creating an empty one on first access. -/
def ConfDepot.getattr (depot : List (String × List (String × PyObj))) (g : String) :
    List (String × PyObj) × List (String × List (String × PyObj)) :=
  match alookup depot g with
  | none => ([], aset depot g [])
  | some dg => (dg, depot)

/-- Embedding of `Conf` (conf.py lines 145-453): the frozen flag, the depot
of staged groups, and the declared group table. -/
structure Conf where
  _is_frozen : Bool
  _conf_depot : List (String × List (String × PyObj))
  _conf_groups : List (String × ConfGroup)
deriving DecidableEq

/-- Embedding of `Conf.__getitem__` (conf.py lines 286-297): unknown group
names raise `UnknownConfError`; otherwise, when the depot holds a staged
entry for the group, reconcile it into the group (which mutates the group
object held in `_conf_groups`) and delete the depot entry, then return the
group.  The second component is the registry state after the call. -/
def Conf.getitem (c : Conf) (group_name : String) : Except PyExc ConfGroup × Conf :=
  match alookup c._conf_groups group_name with
  | none => (.error .unknownConfError, c)
  | some conf_group =>
    match alookup c._conf_depot group_name with
    | none => (.ok conf_group, c)
    | some conf_depot_group =>
      let g2 := conf_group._update_from_conf_depot_group conf_depot_group
      (.ok g2,
        { c with
          _conf_groups := aset c._conf_groups group_name g2
          _conf_depot := adel c._conf_depot group_name })

/-- Embedding of `Conf.__getattr__` (conf.py lines 299-300): attribute access
on a group name just delegates to `__getitem__`. -/
def Conf.getattr (c : Conf) (group_name : String) : Except PyExc ConfGroup × Conf :=
  c.getitem group_name

/-- Reading `conf.<g>.<p>`: `Conf.__getattr__` followed by
`ConfGroup.__getitem__`. -/
def Conf.readProp (c : Conf) (g p : String) : Except PyExc PyObj × Conf :=
  match c.getitem g with
  | (.error e, c2) => (.error e, c2)
  | (.ok grp, c2) => (grp.getitem p, c2)

/-- Writing `conf.<g>.<p> = v`: `Conf.__getattr__` (which may reconcile the
depot) followed by `ConfGroup.__setitem__`; on success the mutated group
object is the one stored in `_conf_groups`. -/
def Conf.writeProp (c : Conf) (g p : String) (v : PyObj) : Option PyExc × Conf :=
  match c.getitem g with
  | (.error e, c2) => (some e, c2)
  | (.ok grp, c2) =>
    match grp.setitem c2._is_frozen p v with
    | (some e, _) => (some e, c2)
    | (none, grp2) => (none, { c2 with _conf_groups := aset c2._conf_groups g grp2 })

/-- Embedding of `Conf._backup` (conf.py lines 238-239): a deep copy of the
declared group table only (the depot is not copied).  `Undefined.__deepcopy__`
returns the singleton, so the copy preserves "never assigned" exactly; in
this pure embedding a deep copy is the value itself. -/
def Conf._backup (c : Conf) : List (String × ConfGroup) :=
  c._conf_groups

/-- Embedding of `Conf._restore` (conf.py lines 241-242). -/
def Conf._restore (c : Conf) (conf_groups : List (String × ConfGroup)) : Conf :=
  { c with _conf_groups := conf_groups }

/-- Embedding of `Conf.mutate_globally` (conf.py lines 269-273): the
generator sets `_is_frozen = False`, yields to the body, and sets
`_is_frozen = True` after the yield.  There is no try/finally, so when the
body raises, the statement after the yield never runs and the exception
propagates with the state exactly as the body left it. -/
def Conf.mutate_globally (c : Conf) (body : Conf → Option PyExc × Conf) :
    Option PyExc × Conf :=
  match body { c with _is_frozen := false } with
  | (none, c2) => (none, { c2 with _is_frozen := true })
  | (some e, c2) => (some e, c2)

/-- Embedding of `Conf.mutate_locally` (conf.py lines 244-267): back up the
group table, run the body inside `mutate_globally`, and restore the backup
after the inner `with` block.  Again no try/finally: when the body raises,
`_restore` never runs. -/
def Conf.mutate_locally (c : Conf) (body : Conf → Option PyExc × Conf) :
    Option PyExc × Conf :=
  let conf_groups_backup := c._backup
  match c.mutate_globally body with
  | (none, c2) => (none, c2._restore conf_groups_backup)
  | (some e, c2) => (some e, c2)

/-- Embedding of `Conf.parse_prop` (conf.py lines 411-412) together with
`ConfGroup.parse_prop`/`get_prop` (lines 546-550):
`self[group].parse_prop(prop, string)`, where `self[group]` reconciles and
may raise `UnknownConfError`, `get_prop` raises `KeyError` for an undeclared
property, and the property type's parser may raise. -/
def Conf.parse_prop (c : Conf) (g p s : String) : Except PyExc PyObj × Conf :=
  match c.getitem g with
  | (.error e, c2) => (.error e, c2)
  | (.ok grp, c2) =>
    match alookup grp._properties p with
    | none => (.error .keyError, c2)
    | some pr => (pr.propType.parse s, c2)

/-- Staging `c.<g>.<p> = value` against the depot handle during a load:
`ConfDepot.__getattr__` (auto-vivify) followed by
`ConfDepotGroup.__setattr__` on the group object held in the depot. -/
def Conf.stageDepot (c : Conf) (g p : String) (v : PyObj) : Conf :=
  let r := ConfDepot.getattr c._conf_depot g
  { c with _conf_depot := aset r.2 g (ConfDepotGroup.setattr r.1 p v) }

/-- Body of the loop in `Conf.load_envvars` (conf.py lines 403-409): for each
environment entry whose name starts with `prefix + "__"`, unpack
`_, group, prop = name.split("__")` (a `ValueError` if the split does not
yield exactly three parts), parse via `Conf.parse_prop`, then execute
`self._conf_depot[group][prop] = value`, i.e. `ConfDepot.__getitem__`
followed by `ConfDepotGroup.__setitem__`. -/
def loadEnvvarsLoop (pfx2 : String) :
    List (String × String) → Conf → Option PyExc × Conf
  | [], c => (none, c)
  | (name, value) :: rest, c =>
    if charsPrefix pfx2.data name.data then
      match splitOnUU name.data with
      | [_, group2, prop2] =>
        match c.parse_prop (String.mk group2) (String.mk prop2) value with
        | (.error e, c2) => (some e, c2)
        | (.ok v, c2) =>
          match ConfDepot.getitem c2._conf_depot (String.mk group2) with
          | .error e => (some e, c2)
          | .ok dg =>
            match ConfDepotGroup.setitem dg (String.mk prop2) v with
            | .error e => (some e, c2)
            | .ok dg2 =>
              loadEnvvarsLoop pfx2 rest
                { c2 with _conf_depot := aset c2._conf_depot (String.mk group2) dg2 }
      | _ => (some .valueError, c)
    else loadEnvvarsLoop pfx2 rest c

/-- Embedding of `Conf.load_envvars` (conf.py lines 383-409): append `"__"`
to the prefix and run the environment loop inside `mutate_globally`. -/
def Conf.load_envvars (c : Conf) (environ : List (String × String)) (pfx : String) :
    Option PyExc × Conf :=
  c.mutate_globally (loadEnvvarsLoop (pfx ++ "__") environ)

/-- Demonstration fixture: an integer property with default 3 and no
override, as produced by `conf.declare_group('g', x=3)`. -/
def demoProp : ConfProperty :=
  { default := .intV 3, _value := none, propType := .integerPT }

/-- Demonstration fixture: the declared group `g` with property `x`. -/
def demoGrp : ConfGroup :=
  { _name := "g", _properties := [("x", demoProp)] }

/-- Demonstration fixture: a frozen registry with group `g` declared and an
empty depot. -/
def demoConf : Conf :=
  { _is_frozen := true, _conf_depot := [], _conf_groups := [("g", demoGrp)] }

/-- Demonstration fixture: the registry of `demoConf` with a staged depot
entry for `g` holding the declared name `x` and an undeclared name `zz`. -/
def demoStagedConf : Conf :=
  { _is_frozen := true
    _conf_depot := [("g", [("x", PyObj.intV 9), ("zz", PyObj.intV 1)])]
    _conf_groups := [("g", demoGrp)] }

/-- Demonstration fixture: an integer property with default 3 whose override
was already set to 7. -/
def demoPropOverridden : ConfProperty :=
  { default := .intV 3, _value := some (.intV 7), propType := .integerPT }

/-- Demonstration fixture: a group whose property `x` already carries the
override 7. -/
def demoGrpOverridden : ConfGroup :=
  { _name := "g", _properties := [("x", demoPropOverridden)] }

/-- Demonstration fixture: a registry whose group `g` has an overridden
property `x` while the depot stages a different value 9 for it. -/
def demoStagedOverriddenConf : Conf :=
  { _is_frozen := true
    _conf_depot := [("g", [("x", PyObj.intV 9)])]
    _conf_groups := [("g", demoGrpOverridden)] }

/-- Demonstration scope body: write `g.x = 5` and then raise `ValueError`,
like a `with` block whose last statement throws. -/
def demoRaisingBody : Conf → Option PyExc × Conf := fun st =>
  match st.writeProp "g" "x" (.intV 5) with
  | (none, st2) => (some .valueError, st2)
  | (some e, st2) => (some e, st2)

/-- Demonstration scope body: stage `c.g.x = 9` into the depot and return
normally, as a load operation run inside the scope would. -/
def demoStagingBody : Conf → Option PyExc × Conf := fun st =>
  (none, st.stageDepot "g" "x" (.intV 9))

/-- State that `demoStagingBody` produces from the unfrozen `demoConf`. -/
def demoStagedResult : Conf :=
  { _is_frozen := false
    _conf_depot := [("g", [("x", PyObj.intV 9)])]
    _conf_groups := [("g", demoGrp)] }

theorem alookup_aset_self {β : Type} (l : List (String × β)) (k : String) (v : β) :
    alookup (aset l k v) k = some v := by
  induction l with
  | nil => simp [aset, alookup]
  | cons kv rest ih =>
    by_cases h : kv.1 = k
    · simp [aset, alookup, h]
    · simp [aset, alookup, h, ih]

theorem alookup_aset_ne {β : Type} (l : List (String × β)) (k k2 : String) (v : β)
    (h : k2 ≠ k) : alookup (aset l k v) k2 = alookup l k2 := by
  induction l with
  | nil => simp [aset, alookup, Ne.symm h]
  | cons kv rest ih =>
    by_cases hk : kv.1 = k
    · subst hk
      simp [aset, alookup, Ne.symm h]
    · simp only [aset, beq_iff_eq, hk, if_false]
      by_cases h2 : kv.1 = k2
      · simp [alookup, h2]
      · simp [alookup, h2, ih]

theorem alookup_adel_self {β : Type} (l : List (String × β)) (k : String) :
    alookup (adel l k) k = none := by
  induction l with
  | nil => simp [adel, alookup]
  | cons kv rest ih =>
    by_cases h : kv.1 = k
    · simp [adel, h, ih]
    · simp [adel, alookup, h, ih]

theorem alookup_adel_ne {β : Type} (l : List (String × β)) (k k2 : String)
    (h : k2 ≠ k) : alookup (adel l k) k2 = alookup l k2 := by
  induction l with
  | nil => simp [adel]
  | cons kv rest ih =>
    by_cases hk : kv.1 = k
    · subst hk
      simp [adel, alookup, Ne.symm h, ih]
    · simp [adel, alookup, hk, ih]

theorem alookup_aset_isSome {β : Type} (l : List (String × β)) (k p : String) (v : β)
    (hk : (alookup l k).isSome) :
    (alookup (aset l k v) p).isSome = (alookup l p).isSome := by
  by_cases h : p = k
  · subst h
    simp [alookup_aset_self, hk]
  · rw [alookup_aset_ne _ _ _ _ h]

theorem upd_isSome (dg : List (String × PyObj)) (g : ConfGroup) (p : String) :
    (alookup (g._update_from_conf_depot_group dg)._properties p).isSome
      = (alookup g._properties p).isSome := by
  induction dg generalizing g with
  | nil => rfl
  | cons pv rest ih =>
    cases hq : alookup g._properties pv.1 with
    | none => simp [ConfGroup._update_from_conf_depot_group, hq, ih]
    | some pr =>
      simp only [ConfGroup._update_from_conf_depot_group, hq]
      rw [ih]
      exact alookup_aset_isSome _ _ _ _ (by simp [hq])

theorem upd_not_mem (dg : List (String × PyObj)) (g : ConfGroup) (p : String)
    (h : p ∉ dg.map Prod.fst) :
    alookup (g._update_from_conf_depot_group dg)._properties p
      = alookup g._properties p := by
  induction dg generalizing g with
  | nil => rfl
  | cons pv rest ih =>
    simp only [List.map_cons, List.mem_cons, not_or] at h
    cases hq : alookup g._properties pv.1 with
    | none => simp [ConfGroup._update_from_conf_depot_group, hq, ih _ h.2]
    | some pr =>
      simp only [ConfGroup._update_from_conf_depot_group, hq]
      rw [ih _ h.2]
      exact alookup_aset_ne _ _ _ _ h.1

theorem upd_staged (dg : List (String × PyObj)) (g : ConfGroup) (p : String)
    (v : PyObj) (pr : ConfProperty)
    (hnd : (dg.map Prod.fst).Nodup)
    (hs : alookup dg p = some v)
    (hp : alookup g._properties p = some pr) :
    alookup (g._update_from_conf_depot_group dg)._properties p
      = some (pr.setValue v) := by
  induction dg generalizing g with
  | nil => simp [alookup] at hs
  | cons pv rest ih =>
    simp only [List.map_cons, List.nodup_cons] at hnd
    by_cases hq : pv.1 = p
    · have hv : pv.2 = v := by
        simpa [alookup, hq] using hs
      subst hq hv
      simp only [ConfGroup._update_from_conf_depot_group, hp]
      rw [upd_not_mem _ _ _ hnd.1]
      exact alookup_aset_self _ _ _
    · have hs2 : alookup rest p = some v := by
        simpa [alookup, hq] using hs
      cases hg2 : alookup g._properties pv.1 with
      | none =>
        simp only [ConfGroup._update_from_conf_depot_group, hg2]
        exact ih _ hnd.2 hs2 hp
      | some prq =>
        simp only [ConfGroup._update_from_conf_depot_group, hg2]
        refine ih _ hnd.2 hs2 ?_
        rw [alookup_aset_ne _ _ _ _ (Ne.symm hq)]
        exact hp

theorem readProp_staged (c : Conf) (g p : String) (ps : List (String × PyObj))
    (grp : ConfGroup) (v : PyObj) (pr : ConfProperty)
    (hg : alookup c._conf_groups g = some grp)
    (hd : alookup c._conf_depot g = some ps)
    (hnd : (ps.map Prod.fst).Nodup)
    (hs : alookup ps p = some v)
    (hp : alookup grp._properties p = some pr) :
    (c.readProp g p).1 = .ok v := by
  simp [Conf.readProp, Conf.getitem, hg, hd, ConfGroup.getitem,
    upd_staged ps grp p v pr hnd hs hp, ConfProperty.value, ConfProperty.setValue]

theorem writeProp_read (c : Conf) (g p : String) (v : PyObj) (grp : ConfGroup)
    (hfz : c._is_frozen = false)
    (hg : alookup c._conf_groups g = some grp)
    (hp : (alookup grp._properties p).isSome) :
    (c.writeProp g p v).1 = none ∧
      (((c.writeProp g p v).2).readProp g p).1 = .ok v := by
  cases hd : alookup c._conf_depot g with
  | none =>
    obtain ⟨pr, hpr⟩ := Option.isSome_iff_exists.mp hp
    constructor
    · simp [Conf.writeProp, Conf.getitem, hg, hd, ConfGroup.setitem, hfz, hpr]
    · simp [Conf.writeProp, Conf.getitem, hg, hd, ConfGroup.setitem, hfz, hpr,
        Conf.readProp, alookup_aset_self, ConfGroup.getitem, ConfProperty.value,
        ConfProperty.setValue]
  | some ps =>
    have hp2 : (alookup (grp._update_from_conf_depot_group ps)._properties p).isSome := by
      rw [upd_isSome]; exact hp
    obtain ⟨pr2, hpr2⟩ := Option.isSome_iff_exists.mp hp2
    constructor
    · simp [Conf.writeProp, Conf.getitem, hg, hd, ConfGroup.setitem, hfz, hpr2]
    · simp [Conf.writeProp, Conf.getitem, hg, hd, ConfGroup.setitem, hfz, hpr2,
        Conf.readProp, alookup_aset_self, alookup_adel_self, ConfGroup.getitem,
        ConfProperty.value, ConfProperty.setValue]

theorem mutate_locally_state (c : Conf) (body : Conf → Option PyExc × Conf) (c2 : Conf)
    (h : body { c with _is_frozen := false } = (none, c2)) :
    c.mutate_locally body =
      (none, { c2 with _is_frozen := true, _conf_groups := c._conf_groups }) := by
  simp [Conf.mutate_locally, Conf.mutate_globally, h, Conf._backup, Conf._restore]

theorem mutate_locally_frame (c : Conf) (body : Conf → Option PyExc × Conf)
    (h : (c.mutate_locally body).1 = none) :
    (c.mutate_locally body).2._conf_groups = c._conf_groups := by
  unfold Conf.mutate_locally at *
  rcases hmg : c.mutate_globally body with ⟨o, c2⟩
  cases o <;> simp_all [Conf._restore, Conf._backup]

theorem literal_eval_cases (s : String) :
    (∃ v, literal_eval s = .ok v) ∨ literal_eval s = .error .valueError ∨
      literal_eval s = .error .syntaxError := by
  unfold literal_eval
  split_ifs with h1 h2 h3 h4
  · exact Or.inl ⟨_, rfl⟩
  · exact Or.inl ⟨_, rfl⟩
  · exact Or.inl ⟨_, rfl⟩
  · cases hi : intLit s.data with
    | some n => exact Or.inl ⟨.intV n, by simp [hi]⟩
    | none =>
      cases hf : floatLit s with
      | some v => exact Or.inl ⟨v, by simp [hi, hf]⟩
      | none => exact Or.inr (Or.inl (by simp [hi, hf]))
  · cases hi : intLit s.data with
    | some n => exact Or.inl ⟨.intV n, by simp [hi]⟩
    | none =>
      cases hf : floatLit s with
      | some v => exact Or.inl ⟨v, by simp [hi, hf]⟩
      | none => exact Or.inr (Or.inr (by simp [hi, hf]))

theorem parse_outcomes (t : PyType) (s : String) :
    (∃ v, PythonLiteralParserBase.parse t s = .ok v ∧ pyIsinstance v t = true) ∨
      PythonLiteralParserBase.parse t s = .error .parseError ∨
      PythonLiteralParserBase.parse t s = .error .syntaxError := by
  unfold PythonLiteralParserBase.parse
  rcases literal_eval_cases s with ⟨v, hv⟩ | h | h
  · rw [hv]
    by_cases hi : pyIsinstance v t
    · exact Or.inl ⟨v, by simp [hi], hi⟩
    · exact Or.inr (Or.inl (by simp [hi]))
  · rw [h]
    exact Or.inr (Or.inl (by simp))
  · rw [h]
    exact Or.inr (Or.inr (by simp))

/-- Claim C1 asserts that the exit action of every scoped mutation window
fires even when the body raises.  The embedded code shows the opposite: the
`contextmanager` generators of `mutate_globally` and `mutate_locally` have
no try/finally, so when the body raises, `_is_frozen` stays `false`, the
group-table snapshot is not restored (the write of 5 survives), and a
`load_envvars` call that raises also leaves the registry unfrozen. -/
theorem C1_exit_skipped_on_raise :
    (demoConf.mutate_globally fun st => (some .valueError, st)).2._is_frozen = false ∧
    (demoConf.mutate_locally demoRaisingBody).1 = some .valueError ∧
    (demoConf.mutate_locally demoRaisingBody).2._is_frozen = false ∧
    ((demoConf.mutate_locally demoRaisingBody).2.readProp "g" "x").1 = .ok (.intV 5) ∧
    (demoConf.load_envvars [("X__g__x", "42")] "X").2._is_frozen = false := by
  refine ⟨rfl, rfl, rfl, rfl, rfl⟩

/-- Claim C2: accessing a declared group (item and attribute access
coincide) while the depot holds a staged entry returns the group updated
from that entry: every staged pair whose name the group declares is copied
into that property's override, staged names the group did not declare are
silently ignored (no error, and the property table's domain is unchanged),
the depot entry is deleted, and a second access applies nothing further. -/
theorem C2_reconcile_on_first_access (c : Conf) (g : String) (grp : ConfGroup)
    (ps : List (String × PyObj))
    (hg : alookup c._conf_groups g = some grp)
    (hd : alookup c._conf_depot g = some ps)
    (hnd : (ps.map Prod.fst).Nodup) :
    c.getattr g = c.getitem g ∧
    (c.getitem g).1 = .ok (grp._update_from_conf_depot_group ps) ∧
    alookup (c.getitem g).2._conf_depot g = none ∧
    alookup (c.getitem g).2._conf_groups g
      = some (grp._update_from_conf_depot_group ps) ∧
    (∀ p v pr, alookup ps p = some v → alookup grp._properties p = some pr →
      alookup (grp._update_from_conf_depot_group ps)._properties p
        = some (pr.setValue v)) ∧
    (∀ p, alookup grp._properties p = none →
      alookup (grp._update_from_conf_depot_group ps)._properties p = none) ∧
    (∀ p, p ∉ ps.map Prod.fst →
      alookup (grp._update_from_conf_depot_group ps)._properties p
        = alookup grp._properties p) ∧
    (c.getitem g).2.getitem g
      = (.ok (grp._update_from_conf_depot_group ps), (c.getitem g).2) := by
  have hget : c.getitem g = (.ok (grp._update_from_conf_depot_group ps),
      { c with
        _conf_groups := aset c._conf_groups g (grp._update_from_conf_depot_group ps)
        _conf_depot := adel c._conf_depot g }) := by
    simp [Conf.getitem, hg, hd]
  refine ⟨rfl, ?_, ?_, ?_, ?_, ?_, ?_, ?_⟩
  · rw [hget]
  · rw [hget]
    exact alookup_adel_self _ _
  · rw [hget]
    exact alookup_aset_self _ _ _
  · intro p v pr hs hp
    exact upd_staged ps grp p v pr hnd hs hp
  · intro p h0
    cases he : alookup (grp._update_from_conf_depot_group ps)._properties p with
    | none => rfl
    | some q =>
      exfalso
      have h1 := upd_isSome ps grp p
      rw [he, h0] at h1
      simp at h1
  · intro p hnm
    exact upd_not_mem ps grp p hnm
  · rw [hget]
    simp [Conf.getitem, alookup_aset_self, alookup_adel_self]

/-- Witness for C2 at the concrete staged registry `demoStagedConf`. -/
theorem C2_witness :
    demoStagedConf.getattr "g" = demoStagedConf.getitem "g" ∧
    (demoStagedConf.getitem "g").1 =
      .ok (demoGrp._update_from_conf_depot_group
        [("x", PyObj.intV 9), ("zz", PyObj.intV 1)]) ∧
    alookup (demoStagedConf.getitem "g").2._conf_depot "g" = none ∧
    alookup (demoStagedConf.getitem "g").2._conf_groups "g"
      = some (demoGrp._update_from_conf_depot_group
        [("x", PyObj.intV 9), ("zz", PyObj.intV 1)]) ∧
    (∀ p v pr, alookup [("x", PyObj.intV 9), ("zz", PyObj.intV 1)] p = some v →
      alookup demoGrp._properties p = some pr →
      alookup (demoGrp._update_from_conf_depot_group
        [("x", PyObj.intV 9), ("zz", PyObj.intV 1)])._properties p
        = some (pr.setValue v)) ∧
    (∀ p, alookup demoGrp._properties p = none →
      alookup (demoGrp._update_from_conf_depot_group
        [("x", PyObj.intV 9), ("zz", PyObj.intV 1)])._properties p = none) ∧
    (∀ p, p ∉ ([("x", PyObj.intV 9), ("zz", PyObj.intV 1)]).map Prod.fst →
      alookup (demoGrp._update_from_conf_depot_group
        [("x", PyObj.intV 9), ("zz", PyObj.intV 1)])._properties p
        = alookup demoGrp._properties p) ∧
    (demoStagedConf.getitem "g").2.getitem "g"
      = (.ok (demoGrp._update_from_conf_depot_group
          [("x", PyObj.intV 9), ("zz", PyObj.intV 1)]),
        (demoStagedConf.getitem "g").2) :=
  C2_reconcile_on_first_access demoStagedConf "g" demoGrp
    [("x", PyObj.intV 9), ("zz", PyObj.intV 1)] rfl rfl (by decide)

/-- Claim C3: inside a `mutate_locally` scope (whose body runs on the
unfrozen state) a write to a declared property succeeds and a subsequent
read sees the written value, and when the scope exits normally the whole
declared group table — every property of every group — is exactly the
pre-scope snapshot. -/
theorem C3_mutate_locally_visibility_and_restore (c : Conf) (g p : String)
    (v : PyObj) (grp : ConfGroup)
    (hg : alookup c._conf_groups g = some grp)
    (hp : (alookup grp._properties p).isSome) :
    (({ c with _is_frozen := false } : Conf).writeProp g p v).1 = none ∧
    ((({ c with _is_frozen := false } : Conf).writeProp g p v).2.readProp g p).1
      = .ok v ∧
    (∀ body : Conf → Option PyExc × Conf, (c.mutate_locally body).1 = none →
      (c.mutate_locally body).2._conf_groups = c._conf_groups) := by
  have h := writeProp_read { c with _is_frozen := false } g p v grp rfl hg hp
  exact ⟨h.1, h.2, fun body hb => mutate_locally_frame c body hb⟩

/-- Witness for C3 at the concrete registry `demoConf`. -/
theorem C3_witness :
    (({ demoConf with _is_frozen := false } : Conf).writeProp "g" "x"
      (PyObj.intV 5)).1 = none ∧
    ((({ demoConf with _is_frozen := false } : Conf).writeProp "g" "x"
      (PyObj.intV 5)).2.readProp "g" "x").1 = .ok (PyObj.intV 5) ∧
    (∀ body : Conf → Option PyExc × Conf,
      (demoConf.mutate_locally body).1 = none →
      (demoConf.mutate_locally body).2._conf_groups = demoConf._conf_groups) :=
  C3_mutate_locally_visibility_and_restore demoConf "g" "x" (PyObj.intV 5)
    demoGrp rfl (by decide)

/-- Claim C4: with the registry frozen (and no staged depot entry for the
group, so the access has no reconciliation side effect), assigning to a
declared property raises `FrozenConfPropError` and leaves the registry —
hence the property's effective value — completely unchanged. -/
theorem C4_frozen_write_rejected (c : Conf) (g p : String) (v : PyObj)
    (grp : ConfGroup)
    (hfz : c._is_frozen = true)
    (hd : alookup c._conf_depot g = none)
    (hg : alookup c._conf_groups g = some grp)
    (_hp : (alookup grp._properties p).isSome) :
    c.writeProp g p v = (some .frozenConfPropError, c) ∧
    (c.writeProp g p v).2.readProp g p = c.readProp g p := by
  have hw : c.writeProp g p v = (some .frozenConfPropError, c) := by
    simp [Conf.writeProp, Conf.getitem, hg, hd, ConfGroup.setitem, hfz]
  exact ⟨hw, by rw [hw]⟩

/-- Witness for C4 at the concrete frozen registry `demoConf`. -/
theorem C4_witness :
    demoConf.writeProp "g" "x" (PyObj.intV 5)
      = (some PyExc.frozenConfPropError, demoConf) ∧
    (demoConf.writeProp "g" "x" (PyObj.intV 5)).2.readProp "g" "x"
      = demoConf.readProp "g" "x" :=
  C4_frozen_write_rejected demoConf "g" "x" (PyObj.intV 5) demoGrp rfl rfl rfl
    (by decide)

/-- Claim C5 asserts that `load_envvars("X")` with `X__g__p = "42"` and a
declared integer property `g.p` succeeds and sets `g.p` to 42.  The
embedded code diverges: parsing succeeds (`Integer.parse "42"` gives 42 and
an undeclared group raises `UnknownConfError` as claimed), but the staging
statement `self._conf_depot[group][prop] = value` raises `KeyError`,
because `ConfDepot.__getitem__` does not auto-vivify (and even with an
entry present, `ConfDepotGroup.__setitem__` takes no value parameter and
would raise `TypeError`); the value never lands, and the registry is also
left unfrozen. -/
theorem C5_load_envvars_crashes :
    (demoConf.load_envvars [("X__g__x", "42")] "X").1 = some .keyError ∧
    ((demoConf.load_envvars [("X__g__x", "42")] "X").2.readProp "g" "x").1
      = .ok (.intV 3) ∧
    (demoConf.load_envvars [("X__g__x", "42")] "X").2._is_frozen = false ∧
    (demoConf.load_envvars [("X__h__q", "1")] "X").1 = some .unknownConfError ∧
    ConfDepotGroup.setitem [] "x" (PyObj.intV 42) = .error .typeError ∧
    Integer.parse "42" = .ok (.intV 42) := by
  refine ⟨rfl, rfl, rfl, rfl, rfl, rfl⟩

/-- Claim C6: reading a property returns the override whenever one has been
assigned — including the falsy values 0, False and the empty string,
because the unset marker is the distinguished sentinel (`none` in this
embedding), not an ordinary value — and returns exactly the declared
default when no override has ever been assigned. -/
theorem C6_effective_value (d : PyObj) (pt : PropType) (p : ConfProperty)
    (v : PyObj) :
    ConfProperty.value { default := d, _value := none, propType := pt } = d ∧
    (p.setValue v).value = v ∧
    (p.setValue (.intV 0)).value = .intV 0 ∧
    (p.setValue (.boolV false)).value = .boolV false ∧
    (p.setValue (.strV "")).value = .strV "" :=
  ⟨rfl, rfl, rfl, rfl, rfl⟩

/-- Counterexample to claim C7 as stated: the integer parser does not
always return a value of the exact target runtime type or raise
`ParseError`.  `Integer.parse "True"` returns the bool `True`, whose
runtime type is `bool`, not `int` (Python's `isinstance` check passes
because `bool` subclasses `int`); and `Integer.parse ""` propagates the
`SyntaxError` from `ast.literal_eval` unchanged, because the `except`
clause catches only `ValueError`. -/
theorem C7_counterexample :
    Integer.parse "True" = .ok (.boolV true) ∧
    PyObj.typeOf (.boolV true) ≠ PyType.intT ∧
    Integer.parse "" = .error .syntaxError ∧
    PyExc.syntaxError ≠ PyExc.parseError := by
  refine ⟨rfl, by decide, rfl, by decide⟩

/-- Claim C7 (amended): for every input string, the integer and float
parsers return a value that is a Python `isinstance` of the target type
(so a bool result passes the int check), or raise `ParseError` (covering
`ValueError` failures of the literal evaluation and type-mismatched
results), or propagate the literal evaluation's `SyntaxError` unchanged. -/
theorem C7_parse_is_instance_or_error (s : String) :
    ((∃ v, Integer.parse s = .ok v ∧ pyIsinstance v .intT = true) ∨
      Integer.parse s = .error .parseError ∨
      Integer.parse s = .error .syntaxError) ∧
    ((∃ v, Float.parse s = .ok v ∧ pyIsinstance v .floatT = true) ∨
      Float.parse s = .error .parseError ∨
      Float.parse s = .error .syntaxError) :=
  ⟨parse_outcomes .intT s, parse_outcomes .floatT s⟩

/-- Counterexample to claim C8 as stated: reading an unknown property name
on a staged depot group raises the built-in `AttributeError`, which is not
an instance of `UnknownConfError` (the subclassing runs the other way), so
the read does not fail with `UnknownConfError`. -/
theorem C8_counterexample :
    ConfDepotGroup.getattr [] "x" = .error .attributeError ∧
    PyExc.pyIsInstance .attributeError .unknownConfError = false ∧
    PyExc.attributeError ≠ PyExc.unknownConfError := by
  refine ⟨rfl, rfl, by decide⟩

/-- Claim C8 (amended): for every staged group and every property name not
staged in it, reading that name on the staged group fails with the plain
built-in `AttributeError` — of which `UnknownConfError` is a subclass, but
the raised exception is the base class, not `UnknownConfError`. -/
theorem C8_staged_unknown_read_attribute_error (dg : List (String × PyObj))
    (p : String) (h : alookup dg p = none) :
    ConfDepotGroup.getattr dg p = .error .attributeError ∧
    PyExc.pyIsInstance .attributeError .unknownConfError = false :=
  ⟨by simp [ConfDepotGroup.getattr, h], rfl⟩

/-- Witness for the amended C8 at a concrete staged group. -/
theorem C8_witness :
    ConfDepotGroup.getattr [("kind", PyObj.strV "seafood")] "name"
      = .error .attributeError ∧
    PyExc.pyIsInstance .attributeError .unknownConfError = false :=
  C8_staged_unknown_read_attribute_error [("kind", PyObj.strV "seafood")]
    "name" (by decide)

/-- Claim C9: `mutate_locally` snapshots and restores only the declared
group table, not the depot.  For a body that returns normally, the depot
after the scope is exactly as the body left it (entries staged inside the
scope survive), the group table is restored, and a staged entry for a
declared group is reconciled on a later access: reading the property then
yields the staged value. -/
theorem C9_depot_not_restored (c : Conf) (body : Conf → Option PyExc × Conf)
    (c2 : Conf) (h : body { c with _is_frozen := false } = (none, c2)) :
    (c.mutate_locally body).2._conf_depot = c2._conf_depot ∧
    (c.mutate_locally body).2._conf_groups = c._conf_groups ∧
    (∀ g ps grp p v pr,
      alookup c2._conf_depot g = some ps →
      (ps.map Prod.fst).Nodup →
      alookup c._conf_groups g = some grp →
      alookup ps p = some v →
      alookup grp._properties p = some pr →
      ((c.mutate_locally body).2.readProp g p).1 = .ok v) := by
  have hml := mutate_locally_state c body c2 h
  rw [hml]
  refine ⟨rfl, rfl, ?_⟩
  intro g ps grp p v pr hdg hnd hg hs hp
  exact readProp_staged _ g p ps grp v pr hg hdg hnd hs hp

/-- Witness for C9: a body that stages `g.x = 9` into the depot from inside
the scope; the staged entry survives the scope exit and is applied on the
next read. -/
theorem C9_witness :
    (demoConf.mutate_locally demoStagingBody).2._conf_depot
      = demoStagedResult._conf_depot ∧
    (demoConf.mutate_locally demoStagingBody).2._conf_groups
      = demoConf._conf_groups ∧
    (∀ g ps grp p v pr,
      alookup demoStagedResult._conf_depot g = some ps →
      (ps.map Prod.fst).Nodup →
      alookup demoConf._conf_groups g = some grp →
      alookup ps p = some v →
      alookup grp._properties p = some pr →
      ((demoConf.mutate_locally demoStagingBody).2.readProp g p).1 = .ok v) :=
  C9_depot_not_restored demoConf demoStagingBody demoStagedResult rfl

/-- Claim C10: reconciliation overwrites unconditionally.  For a declared
group with a staged entry, every staged name the group declares gets its
override set to the staged value — the prior override state of the
property (`pr`, possibly already overridden) is irrelevant — so reading
the property right after the access yields the staged value. -/
theorem C10_reconcile_overwrites_override (c : Conf) (g p : String)
    (ps : List (String × PyObj)) (grp : ConfGroup) (v : PyObj)
    (pr : ConfProperty)
    (hg : alookup c._conf_groups g = some grp)
    (hd : alookup c._conf_depot g = some ps)
    (hnd : (ps.map Prod.fst).Nodup)
    (hs : alookup ps p = some v)
    (hp : alookup grp._properties p = some pr) :
    (c.getitem g).1 = .ok (grp._update_from_conf_depot_group ps) ∧
    alookup (grp._update_from_conf_depot_group ps)._properties p
      = some (pr.setValue v) ∧
    (pr.setValue v).value = v ∧
    (c.readProp g p).1 = .ok v :=
  ⟨by simp [Conf.getitem, hg, hd], upd_staged ps grp p v pr hnd hs hp, rfl,
    readProp_staged c g p ps grp v pr hg hd hnd hs hp⟩

/-- Witness for C10 at a registry whose property already carries override 7
while the depot stages 9. -/
theorem C10_witness :
    (demoStagedOverriddenConf.getitem "g").1 =
      .ok (demoGrpOverridden._update_from_conf_depot_group
        [("x", PyObj.intV 9)]) ∧
    alookup (demoGrpOverridden._update_from_conf_depot_group
      [("x", PyObj.intV 9)])._properties "x"
      = some (demoPropOverridden.setValue (PyObj.intV 9)) ∧
    (demoPropOverridden.setValue (PyObj.intV 9)).value = PyObj.intV 9 ∧
    (demoStagedOverriddenConf.readProp "g" "x").1 = .ok (PyObj.intV 9) :=
  C10_reconcile_overwrites_override demoStagedOverriddenConf "g" "x"
    [("x", PyObj.intV 9)] demoGrpOverridden (PyObj.intV 9) demoPropOverridden
    rfl rfl (by decide) rfl rfl

end Confect
